import Mathlib

/-!
Verification development for the cairo_sandbox repository.

The Python sources are shallowly embedded: numbers are modelled as
rationals (the Python code only ever adds, subtracts, multiplies and
divides coordinate values, so exact rational arithmetic models every
computation the theorems below evaluate), Python exceptions are
modelled with an explicit `PyErr` error type threaded through
`Except` / `Option` results, and mutable objects are modelled by
explicit state passing.  Each definition mirrors one definition of the
source tree; the source file and symbol are named in its doc comment.
-/

namespace CairoSandbox

/-- Python exception values, as raised by the embedded code.  The
constructor identifies the Python exception class; the string carries
the formatted message. -/
inductive PyErr where
  | typeError (msg : String)
  | valueError (msg : String)
  | attributeError (msg : String)
  | nameError (msg : String)
  | other (msg : String)
deriving DecidableEq, Repr

namespace helpers

/-- Embeds `helpers.Point` (src/helpers.py): an immutable 2D vector. -/
structure Point where
  x : ℚ
  y : ℚ
deriving DecidableEq, Repr

/-- Embeds `Point.__add__` (componentwise, via `binop`). -/
def Point.add (a b : Point) : Point := ⟨a.x + b.x, a.y + b.y⟩

/-- Embeds `Point.__sub__` (componentwise, via `binop`). -/
def Point.sub (a b : Point) : Point := ⟨a.x - b.x, a.y - b.y⟩

/-- Square of `Point.__len__` (`sqrt(x**2 + y**2)`); kept squared so it
stays rational. -/
def Point.sqLen (a : Point) : ℚ := a.x ^ 2 + a.y ^ 2

/-- Embeds `helpers.Rect` (src/helpers.py): an axis-aligned rectangle
stored as center plus extents. -/
structure Rect where
  center : Point
  width : ℚ
  height : ℚ
deriving DecidableEq, Repr

/-- Embeds `Rect.from_top_left`. -/
def Rect.from_top_left (top_left : Point) (width height : ℚ) : Rect :=
  ⟨⟨top_left.x + width * 0.5, top_left.y + height * 0.5⟩, width, height⟩

/-- Embeds `Rect.north`. -/
def Rect.north (r : Rect) : Point := r.center.add ⟨0, -0.5 * r.height⟩

/-- Embeds `Rect.south`. -/
def Rect.south (r : Rect) : Point := r.center.add ⟨0, 0.5 * r.height⟩

/-- Embeds `Rect.east`. -/
def Rect.east (r : Rect) : Point := r.center.add ⟨0.5 * r.width, 0⟩

/-- Embeds `Rect.west`. -/
def Rect.west (r : Rect) : Point := r.center.add ⟨-0.5 * r.width, 0⟩

/-- Embeds `Rect.northwest`. -/
def Rect.northwest (r : Rect) : Point :=
  r.center.add ⟨-0.5 * r.width, -0.5 * r.height⟩

/-- Embeds `Rect.northeast`. -/
def Rect.northeast (r : Rect) : Point :=
  r.center.add ⟨0.5 * r.width, -0.5 * r.height⟩

/-- Embeds `Rect.southeast`. -/
def Rect.southeast (r : Rect) : Point :=
  r.center.add ⟨0.5 * r.width, 0.5 * r.height⟩

/-- Embeds `Rect.southwest`. -/
def Rect.southwest (r : Rect) : Point :=
  r.center.add ⟨-0.5 * r.width, 0.5 * r.height⟩

/-- Embeds `Rect.inset`: `amount = size * 2`, center unchanged. -/
def Rect.inset (r : Rect) (size : ℚ) : Rect :=
  ⟨r.center, r.width - size * 2, r.height - size * 2⟩

/-- Embeds `Rect.split_left`. -/
def Rect.split_left (r : Rect) (pos : ℚ) : Rect :=
  Rect.from_top_left r.northwest pos r.height

/-- Embeds `Rect.split_right`. -/
def Rect.split_right (r : Rect) (pos : ℚ) : Rect :=
  Rect.from_top_left (r.northwest.add ⟨pos, 0⟩) (r.width - pos) r.height

/-- Embeds `Rect.split_top`. -/
def Rect.split_top (r : Rect) (pos : ℚ) : Rect :=
  Rect.from_top_left r.northwest r.width pos

/-- Embeds `Rect.split_bottom`. -/
def Rect.split_bottom (r : Rect) (pos : ℚ) : Rect :=
  Rect.from_top_left (r.northwest.add ⟨0, pos⟩) r.width (r.height - pos)

/-- Embeds `Rect.split_vertical`. -/
def Rect.split_vertical (r : Rect) (pos : ℚ) : Rect × Rect :=
  (r.split_left pos, r.split_right pos)

/-- Embeds `Rect.split_horizontal`. -/
def Rect.split_horizontal (r : Rect) (pos : ℚ) : Rect × Rect :=
  (r.split_top pos, r.split_bottom pos)

/-- Embeds `Rect.radius`. -/
def Rect.radius (r : Rect) : ℚ := min r.width r.height * 0.5

/-- Insertion of a rational into an ascending list, used to sort guide
offsets. -/
def insertAsc (v : ℚ) : List ℚ → List ℚ
  | [] => [v]
  | w :: rest => if v ≤ w then v :: w :: rest else w :: insertAsc v rest

/-- Ascending insertion sort over rationals. -/
def sortAsc (l : List ℚ) : List ℚ := l.foldr insertAsc []

/-- Modelled from the spec: the repository's `Guides` type (returned by
the `guides` method on `Rect`) is absent from src/ — only example
scripts (src/examples/guides.py, src/examples/grid.py) call it.  Per
spec §3, a `Guides` is derived from a Rect plus ordered sets of
fractional vertical/horizontal guide positions (0..1 of width/height),
with guide positions normalized into ascending absolute offsets
including the 0 and max boundary.  We store the rect's northwest
corner as the origin of the absolute offsets. -/
structure Guides where
  origin : Point
  xs : List ℚ
  ys : List ℚ
deriving DecidableEq, Repr

/-- Modelled from the spec: builds a `Guides` from a rect and the
fractional guide positions, normalizing fractions to ascending
absolute offsets of the rect's width/height and adding the 0 and max
boundary offsets. -/
def Rect.guides (r : Rect) (vertical horizontal : List ℚ) : Guides :=
  { origin := r.northwest
    xs := 0 :: (sortAsc (vertical.map (fun f => f * r.width)) ++ [r.width])
    ys := 0 :: (sortAsc (horizontal.map (fun f => f * r.height)) ++ [r.height]) }

/-- Modelled from the spec: `intersection(col,row)` returns the point
at the crossing of the (0-indexed, boundaries included) col-th
vertical and row-th horizontal guide. -/
def Guides.intersection (g : Guides) (col row : ℕ) : Point :=
  g.origin.add ⟨g.xs.getD col 0, g.ys.getD row 0⟩

/-- Modelled from the spec: `cell(col,row)` returns the rectangle
between consecutive intersections, i.e. from `intersection(col,row)`
to `intersection(col+1,row+1)`. -/
def Guides.cell (g : Guides) (col row : ℕ) : Rect :=
  Rect.from_top_left (g.intersection col row)
    (g.xs.getD (col + 1) 0 - g.xs.getD col 0)
    (g.ys.getD (row + 1) 0 - g.ys.getD row 0)

end helpers

namespace controller

open helpers

/-- Embeds the cursor state classes of src/controller.py (`Hover`,
`Click`, `DragBegin`, `DragMove`, `DragEnd`).  Each constructor's
fields are exactly the attributes set by the corresponding Python
`__init__`: `Hover` and `Click` store only `pos` (`Click` subclasses
`Hover` and adds nothing), while the three drag states store `pos` and
`origin` (their `rel` attribute is the derived value `pos - origin`,
recovered below by `CursorState.rel`). -/
inductive CursorState where
  | hover (pos : Point)
  | click (pos : Point)
  | dragBegin (pos origin : Point)
  | dragMove (pos origin : Point)
  | dragEnd (pos origin : Point)
deriving DecidableEq, Repr

/-- Current position carried by any cursor state. -/
def CursorState.pos : CursorState → Point
  | .hover p => p
  | .click p => p
  | .dragBegin p _ => p
  | .dragMove p _ => p
  | .dragEnd p _ => p

/-- Drag origin carried by a cursor state, when the Python object has
an `origin` attribute (`DragBegin`, `DragMove`, `DragEnd`); `Hover`
and `Click` have none. -/
def CursorState.origin : CursorState → Option Point
  | .hover _ => none
  | .click _ => none
  | .dragBegin _ o => some o
  | .dragMove _ o => some o
  | .dragEnd _ o => some o

/-- Relative offset `rel = pos - origin` carried by a cursor state,
when the Python object has a `rel` attribute; `Hover` and `Click`
have none. -/
def CursorState.rel : CursorState → Option Point
  | .hover _ => none
  | .click _ => none
  | .dragBegin p o => some (p.sub o)
  | .dragMove p o => some (p.sub o)
  | .dragEnd p o => some (p.sub o)

/-- Embeds `DragEnd.drag_threshold = 1.0`. -/
def drag_threshold : ℚ := 1

/-- Embeds the `button_press` methods.  The event is modelled by its
position `Point(event.x, event.y)`. -/
def CursorState.button_press : CursorState → Point → CursorState
  | .hover p, e => .dragBegin e p
  | .click p, e => .dragBegin e p
  | .dragBegin _ _, e => .hover e
  | .dragMove _ _, e => .hover e
  | .dragEnd _ _, e => .hover e

/-- Embeds the `button_release` methods.  `DragBegin.button_release`
returns `Click(event_pos)` — passing no origin.  `DragMove` always
returns `DragEnd`.  `DragEnd.button_release` reads the undefined bare
name `rel` (instead of `self.rel`), so at runtime it raises a
`NameError` before anything else happens; the result type is `Except`
to carry that failure. -/
def CursorState.button_release : CursorState → Point → Except PyErr CursorState
  | .hover _, e => .ok (.hover e)
  | .click _, e => .ok (.hover e)
  | .dragBegin _ _, e => .ok (.click e)
  | .dragMove _ o, e => .ok (.dragEnd e o)
  | .dragEnd _ _, _ => .error (.nameError "name 'rel' is not defined")

/-- Embeds the `mouse_move` methods. -/
def CursorState.mouse_move : CursorState → Point → CursorState
  | .hover _, e => .hover e
  | .click _, e => .hover e
  | .dragBegin _ o, e => .dragMove e o
  | .dragMove _ o, e => .dragMove e o
  | .dragEnd _ _, e => .hover e

/-- Names of the five callback methods on the capability interface
(`hover`, `begin`, `drag`, `drop`, `click`). -/
inductive Callback where
  | hover
  | begin
  | drag
  | drop
  | click
deriving DecidableEq, Repr

/-- Embeds the `dispatch` methods: which callback each state invokes
(`Hover → hover`, `Click → click`, `DragBegin → begin`,
`DragMove → drag`, `DragEnd → drop`).  The argument passed to the
callback is the state itself, recorded by `DragController.run`
below. -/
def CursorState.dispatchTarget : CursorState → Callback
  | .hover _ => .hover
  | .click _ => .click
  | .dragBegin _ _ => .begin
  | .dragMove _ _ => .drag
  | .dragEnd _ _ => .drop

/-- Raw pointer events fed to `DragController` by the widget signal
handlers, each carrying a position. -/
inductive Event where
  | press (pos : Point)
  | release (pos : Point)
  | move (pos : Point)
deriving DecidableEq, Repr

/-- Embeds one signal-handler invocation of `DragController`
(`button_press` / `button_release` / `mouse_move`): the controller
first replaces `self.cursor` with the transition result, then invokes
`self.cursor.dispatch(self.callbacks)` — i.e. dispatch acts on the
state resulting from the event.  Returns the new cursor together with
the `(callback, state)` pair passed to dispatch. -/
def DragController.handle (cursor : CursorState) (e : Event) :
    Except PyErr (CursorState × (Callback × CursorState)) := do
  let next ← match e with
    | .press p => .ok (cursor.button_press p)
    | .release p => cursor.button_release p
    | .move p => .ok (cursor.mouse_move p)
  return (next, (next.dispatchTarget, next))

/-- Feeds a list of events through `DragController.handle`, returning
the final cursor state and the trace of dispatch invocations (one
`(callback, state)` pair per event, in order). -/
def DragController.run (cursor : CursorState) :
    List Event → Except PyErr (CursorState × List (Callback × CursorState))
  | [] => .ok (cursor, [])
  | e :: rest => do
    let (next, d) ← DragController.handle cursor e
    let (final, trace) ← DragController.run next rest
    return (final, d :: trace)

end controller

/-- Digits-to-number accumulation used to model Python numeral
parsing; fails on any non-digit character.  An empty list yields 0, so
callers check emptiness separately. -/
def parseDigits (cs : List Char) : Option ℕ :=
  cs.foldlM (fun acc c => if c.isDigit then some (acc * 10 + (c.toNat - 48)) else none) 0

/-- Models the Python builtin `float(text)` (an external collaborator
of src/params/text.py) on the plain decimal subset of its grammar: an
optional sign, digits, and an optional fractional part.  Every
override string the theorems below evaluate falls in this subset.
Malformed text raises `ValueError`, as `float` does. -/
def pyFloat (s : String) : Except PyErr ℚ :=
  let cs := s.toList
  let signBody : ℚ × List Char :=
    match cs with
    | '-' :: rest => (-1, rest)
    | '+' :: rest => (1, rest)
    | _ => (1, cs)
  let err : Except PyErr ℚ :=
    .error (.valueError ("could not convert string to float: " ++ s))
  match signBody.2.span (fun c => c ≠ '.') with
  | (intPart, []) =>
    if intPart.isEmpty then err
    else
      match parseDigits intPart with
      | some n => .ok (signBody.1 * n)
      | none => err
  | (intPart, _ :: fracPart) =>
    if intPart.isEmpty && fracPart.isEmpty then err
    else
      match parseDigits intPart, parseDigits fracPart with
      | some n, some f =>
        .ok (signBody.1 * ((n : ℚ) + (f : ℚ) / (10 : ℚ) ^ fracPart.length))
      | _, _ => err

namespace params

/-- Embeds `ParameterGroup` (identical in src/params/text.py and
src/params/gtk.py): an insertion-ordered mapping from name to
parameter (Python `OrderedDict`, modelled as an association list) plus
the declared output resolution, initially `640, 480`. -/
structure ParameterGroup (P : Type) where
  params : List (String × P)
  resolution : ℕ × ℕ
deriving DecidableEq, Repr

/-- Embeds `ParameterGroup.__init__`. -/
def ParameterGroup.empty (P : Type) : ParameterGroup P :=
  { params := [], resolution := (640, 480) }

/-- Embeds `ParameterGroup.define` (same body in both backends): the
duplicate-name check precedes the insertion, so a raising call leaves
the mapping untouched.  The Python method mutates `self` and either
returns `None` or raises; that is modelled by returning the resulting
group state together with the raised error, if any. -/
def ParameterGroup.define (g : ParameterGroup P) (name : String) (param : P) :
    ParameterGroup P × Option PyErr :=
  if (g.params.lookup name).isSome then
    (g, some (.valueError ("Parameter " ++ name ++ " already defined")))
  else
    ({ g with params := g.params ++ [(name, param)] }, none)

/-- Embeds `ParameterGroup.setResolution`. -/
def ParameterGroup.setResolution (g : ParameterGroup P) (x y : ℕ) :
    ParameterGroup P :=
  { g with resolution := (x, y) }

end params

namespace textparams

open helpers

/-- Embeds `NumericParameter` of src/params/text.py: a scalar numeric
value with a finite range.  The constructor's `require` calls check
Python types only, which the embedding's types discharge statically,
so construction is total here. -/
structure NumericParameter where
  lower : ℚ
  upper : ℚ
  step : ℚ
  default : ℚ
deriving DecidableEq, Repr

/-- Embeds `NumericParameter.parse`: converts the raw text with the
type of the default (`float` here, since defaults are modelled as
rationals), then bounds-checks `lower <= value <= upper` and raises
`ValueError` outside the range. -/
def NumericParameter.parse (p : NumericParameter) (text : String) :
    Except PyErr ℚ := do
  let value ← pyFloat text
  if p.lower ≤ value ∧ value ≤ p.upper then
    return value
  else
    throw (.valueError (toString value ++ " not in range [" ++
      toString p.lower ++ ", " ++ toString p.upper ++ "]"))

/-- Embeds `ParameterGroup.getParamValue` of src/params/text.py,
instantiated at a Numeric parameter: the external key-value source
(`os.environ`) is the `env` argument; a bound name is parsed with the
parameter's own grammar, an absent name yields the declared
default. -/
def NumericParameter.getParamValue (env : String → Option String)
    (name : String) (param : NumericParameter) : Except PyErr ℚ :=
  match env name with
  | some text => param.parse text
  | none => .ok param.default

end textparams

namespace gtkparams

open helpers

/-- IEEE-754 double value of Python's `math.pi * 2`, used as the upper
bound of the Angle adjustment. -/
def twoPi : ℚ := 884279719003555 / 140737488355328

/-- Models the external `Gtk.Adjustment` collaborator: a bounded value
holder.  Construction stores the given fields (`page_size` defaults to
0 under the PyGObject constructor used by the source). -/
structure Adjustment where
  value : ℚ
  lower : ℚ
  upper : ℚ
  step_increment : ℚ
  page_size : ℚ
deriving DecidableEq, Repr

/-- Models `Gtk.Adjustment.set_value`, which clamps the new value into
`lower ..= upper - page_size`. -/
def Adjustment.set_value (a : Adjustment) (v : ℚ) : Adjustment :=
  { a with value := max a.lower (min v (a.upper - a.page_size)) }

/-- Models `Gtk.Adjustment.get_value`. -/
def Adjustment.get_value (a : Adjustment) : ℚ := a.value

/-- Embeds `AngleParameter.__init__` of src/params/gtk.py: the
adjustment is created at construction time with bounds `0 .. 2π` and
then set to the default, so the widget-independent state already holds
the (clamped) default.  `label` and `vc` are `None` until
`makeWidget`. -/
structure AngleParameter where
  default : ℚ
  adjustment : Adjustment
  saved_value : ℚ
  format : String
  label : Option String
  vc : Option Unit
deriving DecidableEq, Repr

/-- Embeds construction of `AngleParameter`. -/
def AngleParameter.init (d : ℚ) (format : String) : AngleParameter :=
  { default := d
    adjustment := (Adjustment.mk 0 0 twoPi (1 / 3600) 0).set_value d
    saved_value := d
    format := format
    label := none
    vc := none }

/-- Embeds `AngleParameter.getValue`: reads the adjustment, which
exists from construction. -/
def AngleParameter.getValue (p : AngleParameter) : Except PyErr ℚ :=
  .ok p.adjustment.get_value

/-- Embeds `InfiniteParameter.__init__` of src/params/gtk.py: `value`
is initialised to the default; `label` and `vc` are `None` until
`makeWidget`. -/
structure InfiniteParameter where
  default : ℚ
  value : ℚ
  saved_value : ℚ
  rate : ℚ
  format : String
  label : Option String
  vc : Option Unit
deriving DecidableEq, Repr

/-- Embeds construction of `InfiniteParameter`. -/
def InfiniteParameter.init (d rate : ℚ) (format : String) : InfiniteParameter :=
  { default := d, value := d, saved_value := d, rate := rate
    format := format, label := none, vc := none }

/-- Embeds `InfiniteParameter.getValue`: returns the cached `value`
attribute. -/
def InfiniteParameter.getValue (p : InfiniteParameter) : Except PyErr ℚ :=
  .ok p.value

/-- Embeds `FontParameter.__init__` of src/params/gtk.py: raises
`NotImplementedError` when `use_pango` is requested; otherwise caches
the default in `value`, with `widget = None` until `makeWidget`. -/
structure FontParameter where
  use_pango : Bool
  default : Option String
  value : Option String
  widget : Option Unit
deriving DecidableEq, Repr

/-- Embeds construction of `FontParameter`. -/
def FontParameter.init (d : Option String) (use_pango : Bool) :
    Except PyErr FontParameter :=
  if use_pango then
    .error (.other "NotImplementedError")
  else
    .ok { use_pango := use_pango, default := d, value := d, widget := none }

/-- Embeds `FontParameter.getValue`: returns the cached `value`
attribute. -/
def FontParameter.getValue (p : FontParameter) : Except PyErr (Option String) :=
  .ok p.value

/-- Embeds `ImageParameter.__init__` of src/params/gtk.py (the default
is modelled as the optional file path); `value` caches the default. -/
structure ImageParameter where
  default : Option String
  value : Option String
deriving DecidableEq, Repr

/-- Embeds construction of `ImageParameter`. -/
def ImageParameter.init (d : Option String) : ImageParameter :=
  { default := d, value := d }

/-- Embeds `ImageParameter.getValue`: returns the cached `value`
attribute. -/
def ImageParameter.getValue (p : ImageParameter) : Except PyErr (Option String) :=
  .ok p.value

/-- Embeds `PointParameter.__init__` of src/params/gtk.py.  The class
overrides neither `makeWidget` nor `getValue`, so `getValue` is the
base `Parameter.getValue`, which returns `self.default`. -/
structure PointParameter where
  default : Option Point
deriving DecidableEq, Repr

/-- Embeds construction of `PointParameter`. -/
def PointParameter.init (d : Option Point) : PointParameter :=
  { default := d }

/-- Embeds the inherited base `Parameter.getValue` for
`PointParameter`. -/
def PointParameter.getValue (p : PointParameter) : Except PyErr (Option Point) :=
  .ok p.default

/-- Embeds `NumericParameter.__init__` of src/params/gtk.py: note
`self.adjustment = None`; the adjustment is only created inside
`makeWidget`. -/
structure NumericParameter where
  lower : ℚ
  upper : ℚ
  step : ℚ
  default : ℚ
  adjustment : Option Adjustment
deriving DecidableEq, Repr

/-- Embeds construction of the GTK `NumericParameter`. -/
def NumericParameter.init (lower upper step d : ℚ) : NumericParameter :=
  { lower := lower, upper := upper, step := step, default := d
    adjustment := none }

/-- Embeds `NumericParameter.getValue`:
`return self.adjustment.get_value()`.  Before `makeWidget` the
`adjustment` attribute is `None`, so the call raises
`AttributeError`. -/
def NumericParameter.getValue (p : NumericParameter) : Except PyErr ℚ :=
  match p.adjustment with
  | some a => .ok a.get_value
  | none => .error (.attributeError "'NoneType' object has no attribute 'get_value'")

/-- Embeds `ToggleParameter.__init__` of src/params/gtk.py: no
`widget` attribute is assigned until `makeWidget` (modelled as
`none`). -/
structure ToggleParameter where
  default : Bool
  widget : Option Bool
deriving DecidableEq, Repr

/-- Embeds construction of the GTK `ToggleParameter`. -/
def ToggleParameter.init (d : Bool) : ToggleParameter :=
  { default := d, widget := none }

/-- Embeds `ToggleParameter.getValue`:
`return self.widget.get_active()`.  Before `makeWidget` the instance
has no `widget` attribute, so the access raises `AttributeError`. -/
def ToggleParameter.getValue (p : ToggleParameter) : Except PyErr Bool :=
  match p.widget with
  | some b => .ok b
  | none => .error (.attributeError "'ToggleParameter' object has no attribute 'widget'")

/-- Embeds `ColorParameter.__init__` of src/params/gtk.py: stores the
RGBA default; no `widget` attribute until `makeWidget`. -/
structure ColorParameter where
  default : ℚ × ℚ × ℚ × ℚ
  widget : Option (ℚ × ℚ × ℚ × ℚ)
deriving DecidableEq, Repr

/-- Embeds construction of the GTK `ColorParameter`. -/
def ColorParameter.init (r g b a : ℚ) : ColorParameter :=
  { default := (r, g, b, a), widget := none }

/-- Embeds `ColorParameter.getValue`:
`gdk_color = self.widget.get_color()`.  Before `makeWidget` the
instance has no `widget` attribute, so the access raises
`AttributeError`. -/
def ColorParameter.getValue (p : ColorParameter) : Except PyErr (ℚ × ℚ × ℚ × ℚ) :=
  match p.widget with
  | some c => .ok c
  | none => .error (.attributeError "'ColorParameter' object has no attribute 'widget'")

/-- Embeds `TextParameter.__init__` of src/params/gtk.py:
`self.widget = None` until `makeWidget`. -/
structure TextParameter where
  default : Option String
  multiline : Bool
  widget : Option String
deriving DecidableEq, Repr

/-- Embeds construction of the GTK `TextParameter`. -/
def TextParameter.init (d : Option String) (multiline : Bool) : TextParameter :=
  { default := d, multiline := multiline, widget := none }

/-- Embeds `TextParameter.getValue`: both branches read
`self.widget`, which is `None` before `makeWidget`, so the method
call raises `AttributeError`. -/
def TextParameter.getValue (p : TextParameter) : Except PyErr String :=
  match p.widget with
  | some t => .ok t
  | none =>
    if p.multiline then
      .error (.attributeError "'NoneType' object has no attribute 'get_buffer'")
    else
      .error (.attributeError "'NoneType' object has no attribute 'get_text'")

/-- Embeds `ChoiceParameter.__init__` of src/params/gtk.py for the
list case (alternatives modelled as rationals): the membership check
of the default precedes the model/store construction; `default_row`
records the row of the default; no `widget` attribute exists until
`makeWidget`. -/
structure ChoiceParameter where
  alternatives : List ℚ
  with_entry : Bool
  value_col : ℕ
  store : List (ℚ × ℕ)
  default_row : ℕ
  widget : Option ℕ
deriving DecidableEq, Repr

/-- Embeds construction of the GTK `ChoiceParameter` (list case). -/
def ChoiceParameter.init (alternatives : List ℚ) (d : ℚ) (with_entry : Bool) :
    Except PyErr ChoiceParameter :=
  if d ∈ alternatives then
    .ok { alternatives := alternatives
          with_entry := with_entry
          value_col := 1
          store := alternatives.enum.map (fun iv => (iv.2, iv.1))
          default_row := alternatives.indexOf d
          widget := none }
  else
    .error (.valueError "Default must be one of the alternatives")

/-- Embeds `ChoiceParameter.getValue`:
`i = self.widget.get_active_iter()`.  Before `makeWidget` the instance
has no `widget` attribute, so the access raises `AttributeError`;
afterwards the mapped alternative of the active row is returned. -/
def ChoiceParameter.getValue (p : ChoiceParameter) : Except PyErr (Option ℚ) :=
  match p.widget with
  | some row => .ok (p.alternatives.get? ((p.store.getD row (0, 0)).2))
  | none => .error (.attributeError "'ChoiceParameter' object has no attribute 'widget'")

end gtkparams

namespace script

/-- Message text carried by a `PyErr`. -/
def PyErr.msg : PyErr → String
  | .typeError m => m
  | .valueError m => m
  | .attributeError m => m
  | .nameError m => m
  | .other m => m

/-- Models the external `traceback.format_exc()` collaborator: the
formatted diagnostic text of the exception being handled. -/
def formatExc (e : PyErr) : String :=
  "Traceback (most recent call last): " ++ PyErr.msg e

/-- Embeds `Script` of src/script.py.  The cairo drawing context,
transform matrices and the stdin reader are external collaborators and
are not part of the modelled state; the remaining `__init__` fields
are kept: `load_error` (initially `None`), `path`, `prog` and `params`
(initially `None`, replaced by `reload`), and the `render_tb` /
`halt_on_exc` flags. -/
structure Script where
  load_error : Option PyErr
  path : String
  prog : Option Unit
  params : Option Unit
  render_tb : Bool
  halt_on_exc : Bool
deriving DecidableEq, Repr

/-- Embeds `Script.__init__` (`render_tb=True, halt_on_exc=False` are
the Python defaults; callers pass them explicitly here). -/
def Script.init (path : String) (render_tb halt_on_exc : Bool) : Script :=
  { load_error := none, path := path, prog := none, params := none
    render_tb := render_tb, halt_on_exc := halt_on_exc }

/-- Embeds the `Script` construction of the headless batch runner
(src/offline.py `__main__`):
`Script(args.script, reader, render_tb=False, halt_on_exc=True)`. -/
def offlineScript (path : String) : Script :=
  Script.init path false true

/-- Embeds `Script.reload`.  Compilation of the source file and
execution of the compiled program against the init environment are
performed by external collaborators (`compile`, `exec`) on a
user-supplied script, so their outcomes are arguments.  The method
assigns `self.params`, then compiles (a compile failure propagates —
there is no handler around `compile`), then executes the init phase:
with `halt_on_exc` the init exception propagates, otherwise it is
printed and recorded in `self.load_error`.  Nothing ever resets
`load_error` to `None`. -/
def Script.reload (s : Script) (compileResult : Except PyErr Unit)
    (initOutcome : Except PyErr Unit) : Except PyErr Script :=
  let s1 : Script := { s with params := some () }
  match compileResult with
  | .error e => .error e
  | .ok _ =>
    let s2 : Script := { s1 with prog := some () }
    if s2.halt_on_exc then
      match initOutcome with
      | .error e => .error e
      | .ok _ => .ok s2
    else
      match initOutcome with
      | .error e => .ok { s2 with load_error := some e }
      | .ok _ => .ok s2

/-- Embeds `Script.run`.  The cairo calls (scaling, overlay strokes,
error-text drawing) act on the external drawing context and do not
change the modelled `Script` state; the render-phase `exec` outcome of
the user script is the `renderOutcome` argument.  When `halt_on_exc`
is false the exception is caught and kept as the formatted trace
that the method then renders on-surface (`render_tb`) or prints to
stderr; the captured text is returned.  When `halt_on_exc` is true
the `exec` is not wrapped in a handler, so the exception unwinds out
of `run` (the `helpers.Save` context manager restores the context and
re-raises). -/
def Script.run (s : Script) (renderOutcome : Except PyErr Unit) :
    Except PyErr (Script × Option String) :=
  if s.halt_on_exc then
    match renderOutcome with
    | .error e => .error e
    | .ok _ => .ok (s, none)
  else
    match renderOutcome with
    | .error e => .ok (s, some (formatExc e))
    | .ok _ => .ok (s, none)

end script

open helpers controller params textparams gtkparams script

/-- Claim C8: for every rectangle `r` and split offset `0 ≤ p ≤ r.width`
(resp. `r.height`), `split_vertical p` (resp. `split_horizontal p`)
returns `(a, b)` with `a.width + b.width = r.width`, both parts of
`r`'s height, both widths nonnegative, `a` left of `b` with their
shared edge coinciding (no gap, no overlap), and the outer corners of
`a` and `b` reconstructing `r`'s bounds exactly; symmetrically for the
horizontal split. -/
theorem split_vertical_horizontal_partition :
    (∀ (r : Rect) (p : ℚ), 0 ≤ p → p ≤ r.width →
      ((r.split_vertical p).1.width + (r.split_vertical p).2.width = r.width ∧
       (r.split_vertical p).1.height = r.height ∧
       (r.split_vertical p).2.height = r.height ∧
       0 ≤ (r.split_vertical p).1.width ∧
       0 ≤ (r.split_vertical p).2.width ∧
       (r.split_vertical p).1.northwest = r.northwest ∧
       (r.split_vertical p).1.southwest = r.southwest ∧
       (r.split_vertical p).1.northeast = (r.split_vertical p).2.northwest ∧
       (r.split_vertical p).1.southeast = (r.split_vertical p).2.southwest ∧
       (r.split_vertical p).2.northeast = r.northeast ∧
       (r.split_vertical p).2.southeast = r.southeast)) ∧
    (∀ (r : Rect) (p : ℚ), 0 ≤ p → p ≤ r.height →
      ((r.split_horizontal p).1.height + (r.split_horizontal p).2.height = r.height ∧
       (r.split_horizontal p).1.width = r.width ∧
       (r.split_horizontal p).2.width = r.width ∧
       0 ≤ (r.split_horizontal p).1.height ∧
       0 ≤ (r.split_horizontal p).2.height ∧
       (r.split_horizontal p).1.northwest = r.northwest ∧
       (r.split_horizontal p).1.northeast = r.northeast ∧
       (r.split_horizontal p).1.southwest = (r.split_horizontal p).2.northwest ∧
       (r.split_horizontal p).1.southeast = (r.split_horizontal p).2.northeast ∧
       (r.split_horizontal p).2.southwest = r.southwest ∧
       (r.split_horizontal p).2.southeast = r.southeast)) := by
  constructor
  · intro r p h0 hw
    simp only [Rect.split_vertical, Rect.split_left, Rect.split_right,
      Rect.from_top_left, Rect.northwest, Rect.northeast, Rect.southwest,
      Rect.southeast, Point.add, Point.mk.injEq]
    repeat' apply And.intro
    all_goals first | trivial | linarith
  · intro r p h0 hh
    simp only [Rect.split_horizontal, Rect.split_top, Rect.split_bottom,
      Rect.from_top_left, Rect.northwest, Rect.northeast, Rect.southwest,
      Rect.southeast, Point.add, Point.mk.injEq]
    repeat' apply And.intro
    all_goals first | trivial | linarith

/-- Witness for claim C8 at the rectangle with top-left `(0,0)`,
width 10, height 6, and split offset 4. -/
theorem split_vertical_horizontal_partition_witness :
    ((Rect.from_top_left ⟨0, 0⟩ 10 6).split_vertical 4).1.width +
        ((Rect.from_top_left ⟨0, 0⟩ 10 6).split_vertical 4).2.width =
      (Rect.from_top_left ⟨0, 0⟩ 10 6).width ∧
    ((Rect.from_top_left ⟨0, 0⟩ 10 6).split_horizontal 4).1.height +
        ((Rect.from_top_left ⟨0, 0⟩ 10 6).split_horizontal 4).2.height =
      (Rect.from_top_left ⟨0, 0⟩ 10 6).height :=
  ⟨(split_vertical_horizontal_partition.1 (Rect.from_top_left ⟨0, 0⟩ 10 6) 4
      (by norm_num) (by norm_num [Rect.from_top_left])).1,
   (split_vertical_horizontal_partition.2 (Rect.from_top_left ⟨0, 0⟩ 10 6) 4
      (by norm_num) (by norm_num [Rect.from_top_left])).1⟩

/-- Claim C6, counterexample: for the guides built over the rect with
top-left `(0,0)` and size 100×100 from vertical fractions
`(0.25, 0.75)` and horizontal fractions `(0.5,)`, the claim locates
`cell(1,1)` as the rectangle reaching the outer boundary — i.e. with
southeast corner at the rect's southeast corner `(100,100)` — but the
cell only spans to the third vertical guide at `x = 75`: its southeast
corner is `(75,100)`. -/
theorem guides_cell_1_1_stops_at_third_vertical_guide :
    (((Rect.from_top_left ⟨0, 0⟩ 100 100).guides [1/4, 3/4] [1/2]).cell 1 1).southeast =
      Point.mk 75 100 ∧
    (((Rect.from_top_left ⟨0, 0⟩ 100 100).guides [1/4, 3/4] [1/2]).cell 1 1).southeast ≠
      (Rect.from_top_left ⟨0, 0⟩ 100 100).southeast := by
  constructor
  · norm_num [Rect.guides, Guides.cell, Guides.intersection, Rect.from_top_left,
      Rect.northwest, Rect.southeast, Point.add, sortAsc, insertAsc, List.getD]
  · norm_num [Rect.guides, Guides.cell, Guides.intersection, Rect.from_top_left,
      Rect.northwest, Rect.southeast, Point.add, Point.mk.injEq, sortAsc,
      insertAsc, List.getD]

/-- Claim C6, amended: over the spec-modelled `Guides` for rect
`R` with top-left `(0,0)` and size 100×100, vertical fractions
`(0.25, 0.75)` and horizontal fractions `(0.5,)`:
`intersection(0,0)` is `R`'s northwest corner, `intersection(1,0)` is
25 units to its right, and `cell(1,1)` is the rectangle from the
second vertical/horizontal guides `(25,50)` to the third vertical
guide and the outer horizontal boundary `(75,100)` — not to the outer
boundary in both directions. -/
theorem guides_intersection_and_cell :
    ((Rect.from_top_left ⟨0, 0⟩ 100 100).guides [1/4, 3/4] [1/2]).intersection 0 0 =
      (Rect.from_top_left ⟨0, 0⟩ 100 100).northwest ∧
    ((Rect.from_top_left ⟨0, 0⟩ 100 100).guides [1/4, 3/4] [1/2]).intersection 1 0 =
      ((Rect.from_top_left ⟨0, 0⟩ 100 100).northwest).add ⟨25, 0⟩ ∧
    ((Rect.from_top_left ⟨0, 0⟩ 100 100).guides [1/4, 3/4] [1/2]).cell 1 1 =
      Rect.from_top_left ⟨25, 50⟩ 50 50 := by
  refine ⟨?_, ?_, ?_⟩ <;>
    norm_num [Rect.guides, Guides.cell, Guides.intersection, Rect.from_top_left,
      Rect.northwest, Point.add, Point.mk.injEq, Rect.mk.injEq, sortAsc,
      insertAsc, List.getD]

/-- Claim C9: applying `inset d` and then `inset (-d)` reconstructs the
original rectangle exactly — same center, width and height — for every
rectangle and every inset amount `d`, including amounts that produce
transiently negative extents. -/
theorem inset_inset_neg_reconstructs (r : Rect) (d : ℚ) :
    (r.inset d).inset (-d) = r := by
  cases r with
  | mk c w h =>
    simp only [Rect.inset, Rect.mk.injEq]
    repeat' apply And.intro
    all_goals first | trivial | ring

/-- Claim C3, counterexample: starting from `Hover (0,0)`, the event
sequence press, move, move, release with every event at `(0,0)` has
zero cumulative displacement — strictly below the drag threshold of
1.0 — yet the machine ends in `DragEnd`, not `Click`:
`DragMove.button_release` unconditionally constructs a `DragEnd`; no
threshold comparison exists on this path. -/
theorem press_move_move_release_zero_displacement_ends_dragEnd :
    DragController.run (CursorState.hover ⟨0, 0⟩)
        [Event.press ⟨0, 0⟩, Event.move ⟨0, 0⟩, Event.move ⟨0, 0⟩,
         Event.release ⟨0, 0⟩] =
      Except.ok (CursorState.dragEnd ⟨0, 0⟩ ⟨0, 0⟩,
        [(Callback.begin, CursorState.dragBegin ⟨0, 0⟩ ⟨0, 0⟩),
         (Callback.drag, CursorState.dragMove ⟨0, 0⟩ ⟨0, 0⟩),
         (Callback.drag, CursorState.dragMove ⟨0, 0⟩ ⟨0, 0⟩),
         (Callback.drop, CursorState.dragEnd ⟨0, 0⟩ ⟨0, 0⟩)]) ∧
    (CursorState.dragEnd ⟨0, 0⟩ ⟨0, 0⟩).rel = some ⟨0, 0⟩ ∧
    (Point.mk 0 0).sqLen < drag_threshold ^ 2 :=
  ⟨rfl, by norm_num [CursorState.rel, Point.sub],
   by norm_num [Point.sqLen, drag_threshold]⟩

/-- Claim C3, amended: starting from `Hover p0`, the event sequence
press `p1`, move `p2`, move `p3`, release `p4` always ends in
`DragEnd p4 p0` — regardless of the cumulative displacement, so
`Click` is never produced on this path — and `dispatch` is invoked
exactly once per event, each time with the state resulting from that
event (never the prior state): `begin` with the new `DragBegin`,
`drag` with each new `DragMove`, `drop` with the final `DragEnd`. -/
theorem press_move_move_release_trace (p0 p1 p2 p3 p4 : Point) :
    DragController.run (CursorState.hover p0)
        [Event.press p1, Event.move p2, Event.move p3, Event.release p4] =
      Except.ok (CursorState.dragEnd p4 p0,
        [(Callback.begin, CursorState.dragBegin p1 p0),
         (Callback.drag, CursorState.dragMove p2 p0),
         (Callback.drag, CursorState.dragMove p3 p0),
         (Callback.drop, CursorState.dragEnd p4 p0)]) := rfl

/-- Claim C7, counterexample: a button release in `DragBegin` produces
`Click(event_pos)` — the source passes no origin, and the `Click`
class (a subclass of `Hover`) stores only `pos` — so the resulting
state carries neither the drag origin nor a relative offset, contrary
to the claim that every non-`Hover` state carries both. -/
theorem click_from_dragBegin_release_has_no_origin :
    (CursorState.dragBegin ⟨5, 5⟩ ⟨0, 0⟩).button_release ⟨5, 5⟩ =
      Except.ok (CursorState.click ⟨5, 5⟩) ∧
    (CursorState.click ⟨5, 5⟩).origin = none ∧
    (CursorState.click ⟨5, 5⟩).rel = none :=
  ⟨rfl, rfl, rfl⟩

/-- Claim C7, amended: the `DragBegin`, `DragMove` and `DragEnd`
states carry the origin captured at drag start together with the
relative offset `rel = pos - origin`; the `Click` state — including
the one produced by a button release in `DragBegin`, which receives
only the release position — carries no origin and no relative
offset. -/
theorem cursor_origin_rel_characterization :
    (∀ p o : Point, (CursorState.dragBegin p o).origin = some o ∧
      (CursorState.dragBegin p o).rel = some (p.sub o)) ∧
    (∀ p o : Point, (CursorState.dragMove p o).origin = some o ∧
      (CursorState.dragMove p o).rel = some (p.sub o)) ∧
    (∀ p o : Point, (CursorState.dragEnd p o).origin = some o ∧
      (CursorState.dragEnd p o).rel = some (p.sub o)) ∧
    (∀ p o e : Point, (CursorState.dragBegin p o).button_release e =
      Except.ok (CursorState.click e)) ∧
    (∀ p : Point, (CursorState.click p).origin = none ∧
      (CursorState.click p).rel = none) :=
  ⟨fun _ _ => ⟨rfl, rfl⟩, fun _ _ => ⟨rfl, rfl⟩, fun _ _ => ⟨rfl, rfl⟩,
   fun _ _ _ => rfl, fun _ => ⟨rfl, rfl⟩⟩

/-- Claim C4: in the text/environment backend, for a Numeric parameter
with bounds 0 and 100 named `R`: when the key-value source binds `R`
to the raw text `150`, value resolution raises the range `ValueError`
(the parse succeeded and the bounds check failed); when it binds `R`
to `50`, resolution returns 50; and when `R` is absent from the
source, the declared default is returned.  Universally quantified over
the parameter's step and default. -/
theorem numeric_env_override_resolution (step d : ℚ) :
    (textparams.NumericParameter.getParamValue
        (fun n => if n = "R" then some "150" else none) "R"
        (textparams.NumericParameter.mk 0 100 step d) =
      Except.error (PyErr.valueError (toString (150 : ℚ) ++ " not in range [" ++
        toString (0 : ℚ) ++ ", " ++ toString (100 : ℚ) ++ "]"))) ∧
    (textparams.NumericParameter.getParamValue
        (fun n => if n = "R" then some "50" else none) "R"
        (textparams.NumericParameter.mk 0 100 step d) = Except.ok 50) ∧
    (textparams.NumericParameter.getParamValue (fun _ => none) "R"
        (textparams.NumericParameter.mk 0 100 step d) = Except.ok d) := by
  refine ⟨?_, ?_, rfl⟩ <;>
    · simp +decide [textparams.NumericParameter.getParamValue,
        textparams.NumericParameter.parse, pyFloat, parseDigits, List.span,
        List.span.loop, List.foldlM]
      simp only [bind, Except.bind]
      norm_num
      rfl

/-- Helper: looking a key up in an appended association list falls
through to the second list when the first does not bind the key. -/
theorem lookup_append_of_none {α β : Type} [BEq α] (l₁ l₂ : List (α × β))
    (k : α) (h : l₁.lookup k = none) : (l₁ ++ l₂).lookup k = l₂.lookup k := by
  induction l₁ with
  | nil => simp
  | cons hd tl ih =>
    cases hd with
    | mk k' v =>
      simp only [List.cons_append, List.lookup_cons] at h ⊢
      cases hbeq : (k == k') with
      | true => simp [hbeq] at h
      | false => simp only [hbeq] at h ⊢; exact ih h

/-- Claim C5: for every `ParameterGroup` and name not yet defined in
it, the first `define(name, p1)` succeeds, a second
`define(name, p2)` raises the duplicate-name `ValueError`, the
raising call leaves the group state unchanged, and afterwards the
group maps `name` to exactly the parameter of the first call. -/
theorem define_duplicate_raises_preserves_first {P : Type}
    (g : params.ParameterGroup P) (name : String) (p1 p2 : P)
    (h : g.params.lookup name = none) :
    ((g.define name p1).2 = none) ∧
    (((g.define name p1).1.define name p2).2 =
      some (PyErr.valueError ("Parameter " ++ name ++ " already defined"))) ∧
    (((g.define name p1).1.define name p2).1 = (g.define name p1).1) ∧
    ((g.define name p1).1.params.lookup name = some p1) := by
  have hlook : (g.params ++ [(name, p1)]).lookup name = some p1 := by
    rw [lookup_append_of_none _ _ _ h]
    simp [List.lookup]
  constructor
  · simp [params.ParameterGroup.define, h]
  constructor
  · simp [params.ParameterGroup.define, h, hlook]
  constructor
  · simp [params.ParameterGroup.define, h, hlook]
  · simp [params.ParameterGroup.define, h, hlook]

/-- Witness for claim C5: defining `A` twice in a fresh group — the
second call errors and the group still maps `A` to the first
parameter. -/
theorem define_duplicate_witness :
    (((params.ParameterGroup.empty ℕ).define "A" 1).1.define "A" 2).2 =
      some (PyErr.valueError ("Parameter " ++ "A" ++ " already defined")) ∧
    ((params.ParameterGroup.empty ℕ).define "A" 1).1.params.lookup "A" = some 1 :=
  ⟨(define_duplicate_raises_preserves_first
      (params.ParameterGroup.empty ℕ) "A" 1 2 rfl).2.1,
   (define_duplicate_raises_preserves_first
      (params.ParameterGroup.empty ℕ) "A" 1 2 rfl).2.2.2⟩

/-- Claim C1, counterexample: the headless batch runner
(src/offline.py) constructs its `Script` with `halt_on_exc=True`, and
in that configuration `Script.run` executes the render phase outside
any handler — a render-phase exception propagates to the caller of
`run()` instead of being contained. -/
theorem offline_run_propagates_render_error :
    (script.offlineScript "script.py").run
        (Except.error (PyErr.valueError "render failed")) =
      Except.error (PyErr.valueError "render failed") := rfl

/-- Claim C1, amended: for every script constructed with
`halt_on_exc = False` (the Python default, used by the interactive
hosts), a render-phase exception is caught inside `Script.run`,
recorded as the formatted diagnostic trace, and `run` returns normally
— but this containment does not hold in every host configuration: the
headless batch runner passes `halt_on_exc=True` and there the
exception propagates. -/
theorem run_contains_render_error_without_halt (s : script.Script) (e : PyErr)
    (h : s.halt_on_exc = false) :
    s.run (Except.error e) = Except.ok (s, some (script.formatExc e)) := by
  simp [script.Script.run, h]

/-- Witness for the amended claim C1 at a concrete interactive-host
script and a concrete render exception. -/
theorem run_contains_render_error_witness :
    (script.Script.init "script.py" true false).run
        (Except.error (PyErr.valueError "boom")) =
      Except.ok (script.Script.init "script.py" true false,
        some (script.formatExc (PyErr.valueError "boom"))) :=
  run_contains_render_error_without_halt
    (script.Script.init "script.py" true false) (PyErr.valueError "boom") rfl

/-- Claim C10: `Script.reload` never clears `load_error` — a reload
whose compile and init phases both succeed returns the script with
`params` and `prog` replaced but `load_error` untouched, so an error
recorded by an earlier reload stays in place and `load_error` does not
reflect the outcome of the most recent reload. -/
theorem reload_preserves_stale_load_error (s : script.Script) (e : PyErr)
    (h : s.load_error = some e) :
    s.reload (Except.ok ()) (Except.ok ()) =
      Except.ok { s with params := some (), prog := some () } ∧
    ({ s with params := some (), prog := some () } : script.Script).load_error =
      some e := by
  constructor
  · cases hh : s.halt_on_exc <;> simp [script.Script.reload, hh]
  · simpa using h

/-- Witness for claim C10: a script carrying a stale load error
reloads successfully and still carries the stale error afterwards. -/
theorem reload_preserves_stale_load_error_witness :
    (script.Script.mk (some (PyErr.valueError "old")) "p.py" none none
        true false).reload (Except.ok ()) (Except.ok ()) =
      Except.ok (script.Script.mk (some (PyErr.valueError "old")) "p.py"
        (some ()) (some ()) true false) ∧
    (script.Script.mk (some (PyErr.valueError "old")) "p.py" (some ())
        (some ()) true false).load_error = some (PyErr.valueError "old") :=
  reload_preserves_stale_load_error
    (script.Script.mk (some (PyErr.valueError "old")) "p.py" none none true false)
    (PyErr.valueError "old") rfl

/-- Claim C2, counterexample: the GTK `NumericParameter` — one of the
parameter variants of the interactive backend, and the one the claim
cites — has `adjustment = None` until `makeWidget`, so `getValue()`
immediately after construction raises `AttributeError` instead of
returning the declared default. -/
theorem gtk_numeric_getValue_raises_unwidgeted :
    (gtkparams.NumericParameter.init 0 100 1 50).getValue =
      Except.error
        (PyErr.attributeError "'NoneType' object has no attribute 'get_value'") ∧
    (gtkparams.NumericParameter.init 0 100 1 50).default = 50 ∧
    (gtkparams.NumericParameter.init 0 100 1 50).getValue ≠
      Except.ok (gtkparams.NumericParameter.init 0 100 1 50).default :=
  ⟨rfl, rfl, by simp [gtkparams.NumericParameter.init,
    gtkparams.NumericParameter.getValue]⟩

/-- Claim C2, amended: in the interactive (GTK) backend, `getValue()`
immediately after construction returns the declared default only for
the variants whose value lives on the instance — Angle (whose
adjustment exists from construction; default within the adjustment
bounds `0 .. 2π`), Infinite, Font, Image, and Point (which inherits
the base `Parameter.getValue`) — while Numeric, Choice, Color, Text
and Toggle unconditionally read widget state that does not exist
before `makeWidget()` and raise `AttributeError` instead. -/
theorem gtk_getValue_after_construction_characterization :
    (∀ (d : ℚ) (f : String), 0 ≤ d → d ≤ gtkparams.twoPi →
      (gtkparams.AngleParameter.init d f).getValue = Except.ok d) ∧
    (∀ (d r : ℚ) (f : String),
      (gtkparams.InfiniteParameter.init d r f).getValue = Except.ok d) ∧
    (∀ (d : Option String) (p : gtkparams.FontParameter),
      gtkparams.FontParameter.init d false = Except.ok p →
        p.getValue = Except.ok d) ∧
    (∀ d : Option String,
      (gtkparams.ImageParameter.init d).getValue = Except.ok d) ∧
    (∀ d : Option helpers.Point,
      (gtkparams.PointParameter.init d).getValue = Except.ok d) ∧
    (∀ l u st d : ℚ, (gtkparams.NumericParameter.init l u st d).getValue =
      Except.error
        (PyErr.attributeError "'NoneType' object has no attribute 'get_value'")) ∧
    (∀ (alts : List ℚ) (d : ℚ) (w : Bool) (p : gtkparams.ChoiceParameter),
      gtkparams.ChoiceParameter.init alts d w = Except.ok p →
        p.getValue = Except.error
          (PyErr.attributeError "'ChoiceParameter' object has no attribute 'widget'")) ∧
    (∀ r g b a : ℚ, (gtkparams.ColorParameter.init r g b a).getValue =
      Except.error
        (PyErr.attributeError "'ColorParameter' object has no attribute 'widget'")) ∧
    (∀ (d : Option String) (m : Bool), (gtkparams.TextParameter.init d m).getValue =
      Except.error (PyErr.attributeError (if m then
        "'NoneType' object has no attribute 'get_buffer'" else
        "'NoneType' object has no attribute 'get_text'"))) ∧
    (∀ d : Bool, (gtkparams.ToggleParameter.init d).getValue =
      Except.error
        (PyErr.attributeError "'ToggleParameter' object has no attribute 'widget'")) := by
  refine ⟨?_, fun _ _ _ => rfl, ?_, fun _ => rfl, fun _ => rfl, fun _ _ _ _ => rfl,
    ?_, fun _ _ _ _ => rfl, ?_, fun _ => rfl⟩
  · intro d f h0 h2
    simp only [gtkparams.AngleParameter.init, gtkparams.AngleParameter.getValue,
      gtkparams.Adjustment.set_value, gtkparams.Adjustment.get_value, sub_zero,
      Except.ok.injEq]
    rw [min_eq_left h2, max_eq_right h0]
  · intro d p h
    simp only [gtkparams.FontParameter.init, Bool.false_eq_true, if_false,
      Except.ok.injEq] at h
    subst h
    rfl
  · intro alts d w p h
    by_cases hmem : d ∈ alts
    · simp only [gtkparams.ChoiceParameter.init, if_pos hmem, Except.ok.injEq] at h
      subst h
      rfl
    · simp [gtkparams.ChoiceParameter.init, if_neg hmem] at h
  · intro d m
    cases m <;> rfl

/-- Witness for the amended claim C2: concrete Angle, Font and Choice
parameters — the Angle returns its in-range default 1, the Font
returns its default, and the Choice (successfully constructed from
alternatives `[1, 2]` with default 2) raises `AttributeError` from
`getValue` before `makeWidget`. -/
theorem gtk_getValue_after_construction_witness :
    (gtkparams.AngleParameter.init 1 "%.2f").getValue = Except.ok 1 ∧
    (gtkparams.FontParameter.mk false (some "monospace") (some "monospace")
        none).getValue = Except.ok (some "monospace") ∧
    (gtkparams.ChoiceParameter.mk [1, 2] false 1 [(1, 0), (2, 1)] 1
        none).getValue = Except.error
      (PyErr.attributeError "'ChoiceParameter' object has no attribute 'widget'") :=
  ⟨gtk_getValue_after_construction_characterization.1 1 "%.2f" (by norm_num)
      (by norm_num [gtkparams.twoPi]),
   gtk_getValue_after_construction_characterization.2.2.1 (some "monospace")
      (gtkparams.FontParameter.mk false (some "monospace") (some "monospace") none)
      rfl,
   gtk_getValue_after_construction_characterization.2.2.2.2.2.2.1 [1, 2] 2 false
      (gtkparams.ChoiceParameter.mk [1, 2] false 1 [(1, 0), (2, 1)] 1 none)
      (by simp +decide [gtkparams.ChoiceParameter.init, List.enum])⟩

end CairoSandbox
